import Mathlib

/-!
# WaVeS mapping engine: a shallow embedding of `control.py`

This file embeds the mapping/resolution/dispatch core of the WaVeS
repository (`src/control.py`) and proves properties of it.

The embedding mirrors the Python code line by line:

* `get_setting` is `Control.get_setting` (control.py lines 85-94): the first
  config line containing `text + ":"`, split on `":"`, element 1, stripped.
  A missing setting is `none` (Python raises `IndexError`).
* `build_target_idxs` is the loop in `Control.get_mapping` lines 101-105,
  storing declarations in a dictionary keyed by the target expression.
  Python-dict semantics (update keeps the original insertion position,
  fresh keys append at the end) are modelled by `dictInsert`.
* `active_sessions`, `find_system_session`, `resolve_one`, `resolve_loop`
  and `get_mapping` are `Control.get_mapping` lines 107-165.
* `set_volume_loop` is `Control.set_volume` lines 192-197.

A pycaw audio session is modelled by `PycawSession`: the lowercase process
name is taken from `session.Process.name()` (absent when `Process is None`)
and the display name is `session.DisplayName`.
-/

namespace WaVeS

/-- A pycaw audio session as seen by `control.py`: `procName` models
`session.Process.name()` (`none` when `session.Process is None`) and
`displayName` models `session.DisplayName`. -/
structure PycawSession where
  procName : Option String
  displayName : String
deriving DecidableEq, Repr

/-- A parsed per-slider target expression: `Control.get_mapping` lines
102-104 keeps the raw setting string, turning it into a tuple of stripped
parts when it contains a comma. -/
inductive TargetExpr where
  | single (s : String)
  | tuple (apps : List String)
deriving DecidableEq, Repr

/-- The session objects from `sessions.py` that `Control.get_mapping` binds
to slider indices: `Master(idx)`, `System(idx, session)`, `Session(idx,
session)` and `SessionGroup(group_idx, sessions)`. -/
inductive SessionTarget where
  | master (idx : Nat)
  | system (idx : Nat) (session : PycawSession)
  | session (idx : Nat) (s : PycawSession)
  | sessionGroup (idx : Nat) (sessions : List PycawSession)
deriving DecidableEq, Repr

/-- Substring test on character lists: Python's `needle in hay`. -/
def charsContain (needle : List Char) : List Char → Bool
  | [] => needle.isEmpty
  | c :: rest => needle.isPrefixOf (c :: rest) || charsContain needle rest

/-- Python's substring operator `needle in hay` for strings. -/
def strContains (hay needle : String) : Bool :=
  charsContain needle.toList hay.toList

/-- Helper for `pySplit`: split a character list at every occurrence of
`sep`, `acc` holding the (reversed) characters of the current piece. -/
def splitCharAux (sep : Char) : List Char → List Char → List (List Char)
  | [], acc => [acc.reverse]
  | c :: rest, acc =>
    if c = sep then acc.reverse :: splitCharAux sep rest []
    else splitCharAux sep rest (c :: acc)

/-- Python's `s.split(sep)` for a one-character separator: `"a:b:c"`
splits into `["a", "b", "c"]`. -/
def pySplit (s : String) (sep : Char) : List String :=
  (splitCharAux sep s.data []).map (fun l => ⟨l⟩)

/-- Python's `s.strip()`: remove whitespace from both ends. -/
def pyStrip (s : String) : String :=
  ⟨((s.data.dropWhile Char.isWhitespace).reverse.dropWhile Char.isWhitespace).reverse⟩

/-- Python's `s.lower()` (the config uses ASCII names only). -/
def pyLower (s : String) : String := ⟨s.data.map Char.toLower⟩

/-- `Control.get_setting` (control.py lines 85-94): the first line that
contains `text + ":"`, split on `":"`, element 1, stripped.  Returns `none`
where Python raises `IndexError` (no line matches). -/
def get_setting (lines : List String) (text : String) : Option String :=
  match lines.filter (fun x => strContains x (text ++ ":")) with
  | [] => none
  | x :: _ =>
    match pySplit x ':' with
    | _ :: v :: _ => some (pyStrip v)
    | _ => none

/-- `Control.get_mapping` lines 103-104: a setting string containing a comma
becomes a tuple of stripped application names, otherwise it stays a plain
string. -/
def parse_application (s : String) : TargetExpr :=
  if strContains s "," then TargetExpr.tuple ((pySplit s ',').map pyStrip)
  else TargetExpr.single s

/-- Python `d[k] = v` on a dict represented as an insertion-ordered
association list: updating an existing key keeps its position, a fresh key
is appended at the end. -/
def dictInsert [DecidableEq κ] : List (κ × ν) → κ → ν → List (κ × ν)
  | [], k, v => [(k, v)]
  | p :: rest, k, v =>
    if p.1 = k then (p.1, v) :: rest else p :: dictInsert rest k v

/-- Python `d.get(k)` / `d[k]` on the association-list dict. -/
def dictGet [DecidableEq κ] : List (κ × ν) → κ → Option ν
  | [], _ => none
  | p :: rest, k => if p.1 = k then some p.2 else dictGet rest k

/-- The loop of `Control.get_mapping` lines 101-105 over the index list:
for each index, read its setting (failing like Python's `IndexError` when
absent) and store it in the `target_idxs` dictionary keyed by the target
expression. -/
def build_target_idxs_aux (lines : List String) :
    List Nat → List (TargetExpr × Nat) → Option (List (TargetExpr × Nat))
  | [], d => some d
  | idx :: rest, d =>
    match get_setting lines (toString idx) with
    | none => none
    | some appStr =>
      build_target_idxs_aux lines rest (dictInsert d (parse_application appStr) idx)

/-- `Control.get_mapping` lines 98-105: `target_idxs` built over
`range(sliders)`. -/
def build_target_idxs (lines : List String) (sliders : Nat) :
    Option (List (TargetExpr × Nat)) :=
  build_target_idxs_aux lines (List.range sliders) []

/-- `Control.get_mapping` lines 110-112: the dict comprehension mapping each
session's lowercase process name to the session, for sessions whose
`Process` is not `None` (later duplicates overwrite the value). -/
def active_sessions (found : List PycawSession) : List (String × PycawSession) :=
  found.foldl
    (fun d ses =>
      match ses.procName with
      | some nm => dictInsert d (pyLower nm) ses
      | none => d)
    []

/-- `Control.get_mapping` line 114: the first session whose `DisplayName`
contains `SystemRoot`; `none` where Python raises `IndexError`. -/
def find_system_session (found : List PycawSession) : Option PycawSession :=
  match found.filter (fun s => strContains s.displayName "SystemRoot") with
  | [] => none
  | s :: _ => some s

/-- The mutable state of the loop in `Control.get_mapping` lines 113-152:
the `session_dict` lookup table and the `mapped_sessions` list. -/
structure ResolveState where
  session_dict : List (Nat × SessionTarget)
  mapped_sessions : List PycawSession
deriving DecidableEq, Repr

/-- `Control.get_mapping` lines 133-147 (inner loop of the tuple branch):
collect the live sessions of the group members in declared order, skipping
the reserved names `master`, `system` and `unmapped`. -/
def group_hits (active : List (String × PycawSession)) : List String → List PycawSession
  | [] => []
  | app0 :: rest =>
    let app := pyLower app0
    if app = "master" ∨ app = "system" ∨ app = "unmapped" then group_hits active rest
    else
      match dictGet active app with
      | some ses => ses :: group_hits active rest
      | none => group_hits active rest

/-- One iteration of the loop of `Control.get_mapping` lines 116-152:
resolve a single `(target, idx)` declaration, updating `session_dict` and
`mapped_sessions`. -/
def resolve_one (active : List (String × PycawSession)) (sys : PycawSession)
    (st : ResolveState) : TargetExpr → Nat → ResolveState
  | TargetExpr.single t0, idx =>
    let t := pyLower t0
    if t = "master" then
      ⟨dictInsert st.session_dict idx (SessionTarget.master idx), st.mapped_sessions⟩
    else if t = "system" then
      ⟨dictInsert st.session_dict idx (SessionTarget.system idx sys),
       st.mapped_sessions ++ [sys]⟩
    else if t = "unmapped" then st
    else
      match dictGet active t with
      | some ses =>
          ⟨dictInsert st.session_dict idx (SessionTarget.session idx ses),
           st.mapped_sessions ++ [ses]⟩
      | none => st
  | TargetExpr.tuple apps, idx =>
    let hits := group_hits active apps
    if hits = [] then st
    else
      ⟨dictInsert st.session_dict idx (SessionTarget.sessionGroup idx hits),
       st.mapped_sessions ++ hits⟩

/-- The full loop of `Control.get_mapping` lines 116-152 over the
insertion-ordered items of `target_idxs`. -/
def resolve_loop (active : List (String × PycawSession)) (sys : PycawSession) :
    List (TargetExpr × Nat) → ResolveState → ResolveState
  | [], st => st
  | (t, idx) :: rest, st =>
      resolve_loop active sys rest (resolve_one active sys st t idx)

/-- `Control.get_mapping` (control.py lines 96-165): parse the declarations,
take the live snapshot, resolve every declaration in order and finally the
`unmapped` group.  `none` models the uncaught Python exceptions (missing
index setting, missing system session, missing `system in unmapped`
setting when `unmapped` is declared). -/
def get_mapping (lines : List String) (sliders : Nat) (found : List PycawSession) :
    Option (List (Nat × SessionTarget)) :=
  match build_target_idxs lines sliders with
  | none => none
  | some tis =>
    match find_system_session found with
    | none => none
    | some sys =>
      let active := active_sessions found
      let st := resolve_loop active sys tis ⟨[], []⟩
      match dictGet tis (TargetExpr.single "unmapped") with
      | none => some st.session_dict
      | some unmapped_idx =>
        let unmapped0 := (active.map Prod.snd).filter
          (fun ses => decide (ses ∉ st.mapped_sessions))
        match get_setting lines "system in unmapped" with
        | none => none
        | some siu =>
          let unmapped1 :=
            if pyLower siu = "false" ∧ sys ∈ unmapped0 then unmapped0.erase sys
            else unmapped0
          some (dictInsert st.session_dict unmapped_idx
            (SessionTarget.sessionGroup unmapped_idx unmapped1))

/-- `Control.__init__` line 78: `self.inverted = self.get_setting("inverted")
in ["True", "true"]`; `none` when the `inverted` setting is absent (Python
raises `IndexError` inside `get_setting`). -/
def parse_inverted (lines : List String) : Option Bool :=
  match get_setting lines "inverted" with
  | none => none
  | some v => some (decide (v = "True" ∨ v = "true"))

/-! ## The volume dispatcher, `Control.set_volume` (control.py lines 192-197)

`set_volume` iterates over `self.sessions.items()` and calls
`app.set_volume(volume)` with no exception handler.  The session objects
come from `sessions.py`, which is not part of the sources here; their
volume-set behaviour is modelled from the spec: a call on a valid handle
succeeds, a call on a stale handle raises `VolumeSetError`
(spec sections 4.2 and 7). -/

/-- Modelled from the spec: the behaviour of one target's `set_volume` call
(`sessions.py` is missing from the sources).  `ok` means the underlying OS
volume handle is valid and the call succeeds; `stale` means the handle has
become invalid and the call raises `VolumeSetError`. -/
inductive AppBehavior where
  | ok
  | stale
deriving DecidableEq, Repr

/-- How a `Control.set_volume` call terminates: normally, or by an uncaught
`VolumeSetError` from a target, or by an uncaught `IndexError` from
`values[index]`. -/
inductive DispatchOutcome where
  | completed
  | volumeSetError
  | indexError
deriving DecidableEq, Repr

/-- `Control.set_volume` (control.py lines 192-197): for each
`(index, app)` in `self.sessions.items()`, compute
`volume = values[index] / 1023`, flip it when `self.inverted`, and call
`app.set_volume(volume)`.  The result collects the `(index, volume)` calls
that were actually applied, paired with how the loop terminated; there is
no exception handler, so a raising call ends the whole batch. -/
def set_volume_loop (inverted : Bool) (values : List ℚ) :
    List (Nat × AppBehavior) → List (Nat × ℚ) × DispatchOutcome
  | [] => ([], DispatchOutcome.completed)
  | (index, app) :: rest =>
    match values[index]? with
    | none => ([], DispatchOutcome.indexError)
    | some v =>
      let volume0 := v / 1023
      let volume := if inverted then 1 - volume0 else volume0
      match app with
      | AppBehavior.stale => ([], DispatchOutcome.volumeSetError)
      | AppBehavior.ok =>
        let r := set_volume_loop inverted values rest
        ((index, volume) :: r.1, r.2)

/-! ## The state mutated by `Control.get_mapping`

`Control.get_mapping` rebuilds `self.target_idxs`, `self.sessions` and
`self.found_pycaw_sessions` from `self.lines` and `self.sliders` on every
call; `ControlState` gathers exactly those fields. -/

/-- The fields of `Control` read and written by `get_mapping`. -/
structure ControlState where
  lines : List String
  sliders : Nat
  target_idxs : List (TargetExpr × Nat)
  sessions : Option (List (Nat × SessionTarget))
  found_pycaw_sessions : Option (List PycawSession)
deriving DecidableEq, Repr

/-- `Control.get_mapping` as a state transformer on the `Control` fields:
it re-reads the config, rebuilds `target_idxs`, takes the snapshot and
stores the resolved `session_dict` in `sessions`.  `none` models the
uncaught exceptions. -/
def get_mapping_st (c : ControlState) (snapshot : List PycawSession) :
    Option ControlState :=
  match build_target_idxs c.lines c.sliders with
  | none => none
  | some tis =>
    match get_mapping c.lines c.sliders snapshot with
    | none => none
    | some d =>
      some { c with target_idxs := tis, sessions := some d,
                    found_pycaw_sessions := some snapshot }

/-! ## Concrete fixtures

Live-session snapshots and configs used by the scenario theorems below. -/

/-- A live Chrome session. -/
def chromePy : PycawSession := ⟨some "chrome.exe", "Google Chrome"⟩

/-- A live Firefox session. -/
def ffPy : PycawSession := ⟨some "firefox.exe", "Firefox"⟩

/-- The system-sounds session: its display name contains `SystemRoot`. -/
def sysPy : PycawSession := ⟨some "system", "@%SystemRoot%/System32/AudioSrv.Dll,-202"⟩

/-- The config of the spec's basic scenario. -/
def lines2 : List String :=
  ["0: master", "1: system", "2: chrome.exe", "3: unmapped",
   "system in unmapped: True"]

/-- Live snapshot of the spec's basic scenario. -/
def found2 : List PycawSession := [chromePy, ffPy, sysPy]

/-- The `target_idxs` dictionary of the basic scenario. -/
def tis2 : List (TargetExpr × Nat) :=
  [(TargetExpr.single "master", 0), (TargetExpr.single "system", 1),
   (TargetExpr.single "chrome.exe", 2), (TargetExpr.single "unmapped", 3)]

/-- The resolved mapping of the basic scenario. -/
def d2 : List (Nat × SessionTarget) :=
  [(0, SessionTarget.master 0), (1, SessionTarget.system 1 sysPy),
   (2, SessionTarget.session 2 chromePy),
   (3, SessionTarget.sessionGroup 3 [ffPy])]

/-- A config declaring the same index twice. -/
def lines7 : List String := ["0: chrome.exe", "0: firefox.exe"]

/-- A config declaring `unmapped` but omitting `system in unmapped`. -/
def lines8 : List String := ["0: chrome.exe", "1: unmapped"]

/-- Live snapshot used with `lines8`. -/
def found8 : List PycawSession := [chromePy, sysPy]

/-- A config declaring the same target expression at two distinct indices. -/
def lines10 : List String :=
  ["0: chrome.exe", "1: master", "2: system", "3: chrome.exe"]

/-- Live snapshot used with `lines10`. -/
def found10 : List PycawSession := [sysPy, chromePy]

/-- A fresh `Control` state over the basic-scenario config. -/
def cs0 : ControlState := ⟨lines2, 4, [], none, none⟩

/-- The `Control` state after one `get_mapping` run of the basic scenario. -/
def cs1 : ControlState := ⟨lines2, 4, tis2, some d2, some found2⟩

/-! ## Dictionary and resolution lemmas -/

theorem dictGet_dictInsert [DecidableEq κ] (d : List (κ × ν)) (k : κ) (v : ν) :
    dictGet (dictInsert d k v) k = some v := by
  induction d with
  | nil => simp [dictInsert, dictGet]
  | cons p rest ih =>
    by_cases h : p.1 = k
    · simp [dictInsert, dictGet, h]
    · simp [dictInsert, dictGet, h, ih]

theorem mem_dictInsert [DecidableEq κ] {q : κ × ν} {d : List (κ × ν)} {k : κ} {v : ν}
    (hq : q ∈ dictInsert d k v) : (q.1 = k ∧ q.2 = v) ∨ q ∈ d := by
  induction d with
  | nil =>
    simp only [dictInsert, List.mem_singleton] at hq
    subst hq
    exact Or.inl ⟨rfl, rfl⟩
  | cons p rest ih =>
    by_cases h : p.1 = k
    · rw [dictInsert, if_pos h] at hq
      rcases List.mem_cons.mp hq with h1 | h2
      · subst h1; exact Or.inl ⟨h, rfl⟩
      · exact Or.inr (List.mem_cons_of_mem _ h2)
    · rw [dictInsert, if_neg h] at hq
      rcases List.mem_cons.mp hq with h1 | h2
      · subst h1; exact Or.inr (List.mem_cons_self _ _)
      · rcases ih h2 with h3 | h4
        · exact Or.inl h3
        · exact Or.inr (List.mem_cons_of_mem _ h4)

theorem dictGet_mem [DecidableEq κ] {d : List (κ × ν)} {k : κ} {v : ν}
    (h : dictGet d k = some v) : (k, v) ∈ d := by
  induction d with
  | nil => simp [dictGet] at h
  | cons p rest ih =>
    by_cases hk : p.1 = k
    · rw [dictGet, if_pos hk] at h
      injection h with h
      subst h
      subst hk
      exact List.mem_cons_self _ _
    · rw [dictGet, if_neg hk] at h
      exact List.mem_cons_of_mem _ (ih h)

theorem build_target_idxs_aux_mem (lines : List String) (idxs : List Nat)
    (d0 tis : List (TargetExpr × Nat)) (q : TargetExpr × Nat)
    (h : build_target_idxs_aux lines idxs d0 = some tis) (hq : q ∈ tis) :
    q ∈ d0 ∨ q.2 ∈ idxs := by
  induction idxs generalizing d0 with
  | nil =>
    simp only [build_target_idxs_aux, Option.some.injEq] at h
    subst h
    exact Or.inl hq
  | cons idx rest ih =>
    cases hs : get_setting lines (toString idx) with
    | none =>
      simp only [build_target_idxs_aux, hs] at h
      exact Option.noConfusion h
    | some appStr =>
      simp only [build_target_idxs_aux, hs] at h
      rcases ih _ h with h1 | h2
      · rcases mem_dictInsert h1 with ⟨_, h3⟩ | h4
        · right; rw [h3]; exact List.mem_cons_self _ _
        · left; exact h4
      · right; exact List.mem_cons_of_mem _ h2

theorem build_target_idxs_val_lt (lines : List String) (k : Nat)
    (tis : List (TargetExpr × Nat)) (q : TargetExpr × Nat)
    (h : build_target_idxs lines k = some tis) (hq : q ∈ tis) : q.2 < k := by
  rcases build_target_idxs_aux_mem lines (List.range k) [] tis q h hq with h1 | h2
  · cases h1
  · exact List.mem_range.mp h2

theorem resolve_one_session_dict_eq (active : List (String × PycawSession))
    (sys : PycawSession) (st : ResolveState) (t : TargetExpr) (idx : Nat) :
    (resolve_one active sys st t idx).session_dict = st.session_dict ∨
    ∃ v, (resolve_one active sys st t idx).session_dict =
      dictInsert st.session_dict idx v := by
  cases t with
  | single t0 =>
    simp only [resolve_one]
    split
    · exact Or.inr ⟨_, rfl⟩
    split
    · exact Or.inr ⟨_, rfl⟩
    split
    · exact Or.inl rfl
    split
    · exact Or.inr ⟨_, rfl⟩
    · exact Or.inl rfl
  | tuple apps =>
    simp only [resolve_one]
    split
    · exact Or.inl rfl
    · exact Or.inr ⟨_, rfl⟩

theorem resolve_one_mem (active : List (String × PycawSession)) (sys : PycawSession)
    (st : ResolveState) (t : TargetExpr) (idx : Nat) {q : Nat × SessionTarget}
    (hq : q ∈ (resolve_one active sys st t idx).session_dict) :
    q.1 = idx ∨ q ∈ st.session_dict := by
  rcases resolve_one_session_dict_eq active sys st t idx with h | ⟨v, h⟩
  · rw [h] at hq; exact Or.inr hq
  · rw [h] at hq
    rcases mem_dictInsert hq with ⟨h1, _⟩ | h2
    · exact Or.inl h1
    · exact Or.inr h2

theorem resolve_loop_mem (active : List (String × PycawSession)) (sys : PycawSession)
    (l : List (TargetExpr × Nat)) (st : ResolveState) {q : Nat × SessionTarget}
    (hq : q ∈ (resolve_loop active sys l st).session_dict) :
    q ∈ st.session_dict ∨ q.1 ∈ l.map Prod.snd := by
  induction l generalizing st with
  | nil => exact Or.inl hq
  | cons p rest ih =>
    obtain ⟨t, idx⟩ := p
    simp only [resolve_loop] at hq
    rcases ih _ hq with h1 | h2
    · rcases resolve_one_mem active sys st t idx h1 with h3 | h4
      · right; rw [h3]; simp
      · left; exact h4
    · right
      simp only [List.map_cons, List.mem_cons]
      exact Or.inr h2

/-! ## Claim theorems -/

/-- C1: for every resolution pass, no `LiveSession` that was claimed by an
explicit (non-`unmapped`) declaration — i.e. that ended up in
`mapped_sessions` via a `system`, single-process or group binding — appears
in the member set of the `SessionGroup` bound to the `unmapped` index of
the resolved mapping. -/
theorem unmapped_group_excludes_claimed (lines : List String) (sliders : Nat)
    (found : List PycawSession) (tis : List (TargetExpr × Nat)) (sys : PycawSession)
    (uidx : Nat) (d : List (Nat × SessionTarget)) (members : List PycawSession)
    (s : PycawSession)
    (htis : build_target_idxs lines sliders = some tis)
    (hsys : find_system_session found = some sys)
    (hu : dictGet tis (TargetExpr.single "unmapped") = some uidx)
    (hd : get_mapping lines sliders found = some d)
    (hm : dictGet d uidx = some (SessionTarget.sessionGroup uidx members))
    (hs : s ∈ (resolve_loop (active_sessions found) sys tis ⟨[], []⟩).mapped_sessions) :
    s ∉ members := by
  unfold get_mapping at hd
  simp only [htis, hsys, hu] at hd
  cases hsiu : get_setting lines "system in unmapped" with
  | none =>
    simp only [hsiu] at hd
    exact Option.noConfusion hd
  | some siu =>
    simp only [hsiu] at hd
    injection hd with hd
    subst hd
    rw [dictGet_dictInsert] at hm
    injection hm with hm
    injection hm with hm1 hm2
    subst hm2
    intro hmem
    have hmem0 : s ∈ (List.map Prod.snd (active_sessions found)).filter
        (fun ses => decide
          (ses ∉ (resolve_loop (active_sessions found) sys tis ⟨[], []⟩).mapped_sessions)) := by
      split at hmem
      · exact List.mem_of_mem_erase hmem
      · exact hmem
    have := (List.mem_filter.mp hmem0).2
    exact (of_decide_eq_true this) hs

/-- Witness for C1: in the basic scenario the system session is claimed by
the explicit `system` declaration and is not a member of the resolved
unmapped group `[ffPy]`. -/
theorem unmapped_group_excludes_claimed_witness :
    get_mapping lines2 4 found2 = some d2 ∧
    sysPy ∈ (resolve_loop (active_sessions found2) sysPy tis2 ⟨[], []⟩).mapped_sessions ∧
    sysPy ∉ [ffPy] :=
  ⟨by decide, by decide,
    unmapped_group_excludes_claimed lines2 4 found2 tis2 sysPy 3 d2 [ffPy] sysPy
      (by decide) (by decide) (by decide) (by decide) (by decide) (by decide)⟩

/-- C2: for the config `{0: master, 1: system, 2: chrome.exe, 3: unmapped}`
with live sessions `{chrome.exe, firefox.exe, system}`, resolution produces
exactly `{0: Master, 1: System, 2: Session(chrome.exe),
3: SessionGroup([firefox.exe])}`; the system session is excluded from the
unmapped group because it was explicitly mapped at index 1. -/
theorem scenario_basic_resolution :
    get_mapping lines2 4 found2 =
      some [(0, SessionTarget.master 0), (1, SessionTarget.system 1 sysPy),
            (2, SessionTarget.session 2 chromePy),
            (3, SessionTarget.sessionGroup 3 [ffPy])] := by
  decide

/-- C3: every key of a successfully resolved mapping is an index in
`[0, sliders)`. -/
theorem get_mapping_keys_lt (lines : List String) (sliders : Nat)
    (found : List PycawSession) (d : List (Nat × SessionTarget)) (q : Nat × SessionTarget)
    (hd : get_mapping lines sliders found = some d) (hq : q ∈ d) :
    q.1 < sliders := by
  unfold get_mapping at hd
  cases htis : build_target_idxs lines sliders with
  | none => simp [htis] at hd
  | some tis =>
    cases hsys : find_system_session found with
    | none => simp [htis, hsys] at hd
    | some sys =>
      simp only [htis, hsys] at hd
      cases hu : dictGet tis (TargetExpr.single "unmapped") with
      | none =>
        simp only [hu] at hd
        injection hd with hd
        subst hd
        rcases resolve_loop_mem _ _ tis ⟨[], []⟩ hq with h1 | h2
        · cases h1
        · rcases List.mem_map.mp h2 with ⟨p, hp, hpq⟩
          rw [← hpq]
          exact build_target_idxs_val_lt lines sliders tis p htis hp
      | some uidx =>
        simp only [hu] at hd
        cases hsiu : get_setting lines "system in unmapped" with
        | none =>
          simp only [hsiu] at hd
          exact Option.noConfusion hd
        | some siu =>
          simp only [hsiu] at hd
          injection hd with hd
          subst hd
          rcases mem_dictInsert hq with ⟨h1, _⟩ | h2
          · rw [h1]
            exact build_target_idxs_val_lt lines sliders tis _ htis (dictGet_mem hu)
          · rcases resolve_loop_mem _ _ tis ⟨[], []⟩ h2 with h3 | h4
            · cases h3
            · rcases List.mem_map.mp h4 with ⟨p, hp, hpq⟩
              rw [← hpq]
              exact build_target_idxs_val_lt lines sliders tis p htis hp

/-- Witness for C3: in the basic scenario the unmapped binding's key 3 is
below the slider count 4. -/
theorem get_mapping_keys_lt_witness :
    get_mapping lines2 4 found2 = some d2 ∧
    (3, SessionTarget.sessionGroup 3 [ffPy]).1 < 4 :=
  ⟨by decide,
    get_mapping_keys_lt lines2 4 found2 d2 (3, SessionTarget.sessionGroup 3 [ffPy])
      (by decide) (by decide)⟩

/-- Counterexample to C4 as claimed: with the first bound target raising
`VolumeSetError` and a second healthy target after it, the dispatcher
applies no volume at all to the remaining target (the log is empty) and
the error escapes the batch (`volumeSetError`, not `completed`). -/
theorem set_volume_stale_aborts_example :
    set_volume_loop false [512, 512] [(0, AppBehavior.stale), (1, AppBehavior.ok)] =
      ([], DispatchOutcome.volumeSetError) :=
  rfl

/-- C4 amended: if `set_volume` raises `VolumeSetError` for one target, the
dispatcher stops there — the targets before it received their volumes, the
failing target and every later one receive nothing, and the exception
propagates to the caller (there is no handler in `Control.set_volume`). -/
theorem set_volume_stale_aborts (inverted : Bool) (values : List ℚ)
    (pre post : List (Nat × AppBehavior)) (i : Nat)
    (hok : ∀ p ∈ pre, p.2 = AppBehavior.ok)
    (hlt : ∀ p ∈ pre, p.1 < values.length)
    (hi : i < values.length) :
    set_volume_loop inverted values (pre ++ (i, AppBehavior.stale) :: post) =
      (pre.map fun p =>
        (p.1, if inverted then 1 - values.getD p.1 0 / 1023 else values.getD p.1 0 / 1023),
       DispatchOutcome.volumeSetError) := by
  induction pre with
  | nil =>
    have hv : values[i]? = some values[i] := List.getElem?_eq_getElem hi
    simp only [List.nil_append, set_volume_loop, hv, List.map_nil]
  | cons p rest ih =>
    obtain ⟨index, app⟩ := p
    have h1 : app = AppBehavior.ok := hok (index, app) (List.mem_cons_self _ _)
    have h2 : index < values.length := hlt (index, app) (List.mem_cons_self _ _)
    subst h1
    have hv : values[index]? = some values[index] := List.getElem?_eq_getElem h2
    have hg : values.getD index 0 = values[index] := by
      rw [List.getD_eq_getElem?_getD, hv]; rfl
    simp only [List.cons_append, set_volume_loop, hv, List.map_cons, List.append_eq]
    rw [ih (fun p hp => hok p (List.mem_cons_of_mem _ hp))
        (fun p hp => hlt p (List.mem_cons_of_mem _ hp))]
    simp [hg, hv]

/-- Witness for C4 amended: one healthy target, then a stale one — only the
healthy target's volume is applied and the error escapes. -/
theorem set_volume_stale_aborts_witness :
    set_volume_loop false [512, 512] [(0, AppBehavior.ok), (1, AppBehavior.stale)] =
      ([(0, 512 / 1023)], DispatchOutcome.volumeSetError) :=
  (set_volume_stale_aborts false [512, 512] [(0, AppBehavior.ok)] [] 1
      (by decide) (by decide) (by decide)).trans (by norm_num)

/-- C5: when every bound target is healthy and every index is in range, the
dispatched volume at index `i` is `values[i] / 1023`, flipped to
`1 - values[i] / 1023` when `inverted`, and the batch completes. -/
theorem set_volume_normalization (inverted : Bool) (values : List ℚ)
    (apps : List (Nat × AppBehavior))
    (hok : ∀ p ∈ apps, p.2 = AppBehavior.ok)
    (hlt : ∀ p ∈ apps, p.1 < values.length) :
    set_volume_loop inverted values apps =
      (apps.map fun p =>
        (p.1, if inverted then 1 - values.getD p.1 0 / 1023 else values.getD p.1 0 / 1023),
       DispatchOutcome.completed) := by
  induction apps with
  | nil => rfl
  | cons p rest ih =>
    obtain ⟨index, app⟩ := p
    have h1 : app = AppBehavior.ok := hok (index, app) (List.mem_cons_self _ _)
    have h2 : index < values.length := hlt (index, app) (List.mem_cons_self _ _)
    subst h1
    have hv : values[index]? = some values[index] := List.getElem?_eq_getElem h2
    have hg : values.getD index 0 = values[index] := by
      rw [List.getD_eq_getElem?_getD, hv]; rfl
    simp only [set_volume_loop, hv, List.map_cons]
    rw [ih (fun p hp => hok p (List.mem_cons_of_mem _ hp))
        (fun p hp => hlt p (List.mem_cons_of_mem _ hp))]
    simp [hg, hv]

/-- Witness for C5: the raw batch `[512, 1023, 0]` with `inverted = true`
over three bound targets yields applied volumes
`[1 - 512/1023, 0, 1]`. -/
theorem set_volume_normalization_witness :
    set_volume_loop true [512, 1023, 0]
      [(0, AppBehavior.ok), (1, AppBehavior.ok), (2, AppBehavior.ok)] =
      ([(0, 1 - 512 / 1023), (1, 0), (2, 1)], DispatchOutcome.completed) :=
  (set_volume_normalization true [512, 1023, 0]
      [(0, AppBehavior.ok), (1, AppBehavior.ok), (2, AppBehavior.ok)]
      (by decide) (by decide)).trans (by norm_num)

/-- C6: resolution is idempotent — a second `get_mapping` run on the state
produced by a successful run, against the same unchanged snapshot, yields
exactly the same state (same resolved mapping, keys, variants and member
sets). -/
theorem get_mapping_st_idempotent (c c' : ControlState) (snapshot : List PycawSession)
    (h : get_mapping_st c snapshot = some c') :
    get_mapping_st c' snapshot = some c' := by
  unfold get_mapping_st at h ⊢
  cases htis : build_target_idxs c.lines c.sliders with
  | none => simp [htis] at h
  | some tis =>
    cases hd : get_mapping c.lines c.sliders snapshot with
    | none => simp [htis, hd] at h
    | some d =>
      simp only [htis, hd] at h
      injection h with h
      subst h
      simp [htis, hd]

/-- Witness for C6: a fresh state over the basic-scenario config resolves to
`cs1`, and resolving again from `cs1` returns `cs1` unchanged. -/
theorem get_mapping_st_idempotent_witness :
    get_mapping_st cs0 found2 = some cs1 ∧ get_mapping_st cs1 found2 = some cs1 :=
  ⟨by decide, get_mapping_st_idempotent cs0 cs1 found2 (by decide)⟩

/-- Counterexample to C7 as claimed: with index 0 declared twice
(`0: chrome.exe` then `0: firefox.exe`, both processes live), the config is
not rejected and the binding is the FIRST declaration's target
(`chrome.exe`), not the last one's (`firefox.exe`). -/
theorem duplicate_index_first_wins_example :
    get_mapping lines7 1 [chromePy, ffPy, sysPy] =
      some [(0, SessionTarget.session 0 chromePy)] ∧
    chromePy ≠ ffPy := by
  exact ⟨by decide, by decide⟩

/-- C7 amended: duplicate index declarations are resolved deterministically
with the FIRST declaration winning — `get_setting` reads the first config
line containing `<index>:`, so appending further lines (including duplicate
declarations of the same index) never changes an already-found setting. -/
theorem get_setting_first_line_wins (lines more : List String) (text v : String)
    (h : get_setting lines text = some v) :
    get_setting (lines ++ more) text = some v := by
  unfold get_setting at h ⊢
  rw [List.filter_append]
  cases hf : List.filter (fun x => strContains x (text ++ ":")) lines with
  | nil =>
    rw [hf] at h
    exact Option.noConfusion h
  | cons x xs =>
    rw [hf] at h
    exact h

/-- Witness for C7 amended: appending a duplicate `0:` declaration leaves
the parsed value of index 0 unchanged. -/
theorem get_setting_first_line_wins_witness :
    get_setting ["0: chrome.exe"] "0" = some "chrome.exe" ∧
    get_setting (["0: chrome.exe"] ++ ["0: firefox.exe"]) "0" = some "chrome.exe" :=
  ⟨by decide,
    get_setting_first_line_wins ["0: chrome.exe"] ["0: firefox.exe"] "0"
      "chrome.exe" (by decide)⟩

/-- Counterexample to C8 as claimed: a config that declares `unmapped` but
omits the `system in unmapped` key makes resolution fail (Python raises
`IndexError` inside `get_setting`); adding the key makes the same
config resolve. -/
theorem missing_system_in_unmapped_example :
    get_mapping lines8 2 found8 = none ∧
    get_mapping (lines8 ++ ["system in unmapped: True"]) 2 found8 =
      some [(0, SessionTarget.session 0 chromePy),
            (1, SessionTarget.sessionGroup 1 [sysPy])] := by
  exact ⟨by decide, by decide⟩

/-- C8 amended: when `unmapped` is declared and the `system in unmapped`
key is absent, resolution does not default the setting to true — it fails
with an uncaught error. -/
theorem missing_system_in_unmapped_fails (lines : List String) (sliders : Nat)
    (found : List PycawSession) (tis : List (TargetExpr × Nat)) (sys : PycawSession)
    (uidx : Nat)
    (htis : build_target_idxs lines sliders = some tis)
    (hsys : find_system_session found = some sys)
    (hu : dictGet tis (TargetExpr.single "unmapped") = some uidx)
    (hset : get_setting lines "system in unmapped" = none) :
    get_mapping lines sliders found = none := by
  unfold get_mapping
  simp [htis, hsys, hu, hset]

/-- Witness for C8 amended: the concrete config `lines8` declares
`unmapped`, lacks the key, and resolution fails. -/
theorem missing_system_in_unmapped_fails_witness :
    get_mapping lines8 2 found8 = none :=
  missing_system_in_unmapped_fails lines8 2 found8
    [(TargetExpr.single "chrome.exe", 0), (TargetExpr.single "unmapped", 1)]
    sysPy 1 (by decide) (by decide) (by decide) (by decide)

/-- Counterexample to C9 as claimed: the value `TRUE` — a casing of `true` —
does NOT enable inversion, while `true` does: the parse is not
case-insensitive. -/
theorem inverted_uppercase_example :
    parse_inverted ["inverted: TRUE"] = some false ∧
    parse_inverted ["inverted: true"] = some true := by
  exact ⟨by decide, by decide⟩

/-- C9 amended: inversion is enabled exactly when the `inverted` value is
the exact string `True` or `true`; every other value (including `TRUE` and
every casing of `false`) disables it. -/
theorem inverted_exact_casing (lines : List String) (v : String)
    (h : get_setting lines "inverted" = some v) :
    (parse_inverted lines = some true ↔ (v = "True" ∨ v = "true")) := by
  unfold parse_inverted
  rw [h]
  simp

/-- Witness for C9 amended: the exact value `true` enables inversion. -/
theorem inverted_exact_casing_witness :
    get_setting ["inverted: true"] "inverted" = some "true" ∧
    parse_inverted ["inverted: true"] = some true :=
  ⟨by decide,
    (inverted_exact_casing ["inverted: true"] "true" (by decide)).mpr (Or.inr rfl)⟩

/-- C10: with `chrome.exe` declared at both index 0 and index 3 (and the
process live), only the higher index 3 is bound to it — the declaration
table is keyed by target expression, the later assignment overwrites the
earlier, and index 0 is silently left unbound. -/
theorem duplicate_target_higher_index_wins :
    get_mapping lines10 4 found10 =
      some [(3, SessionTarget.session 3 chromePy), (1, SessionTarget.master 1),
            (2, SessionTarget.system 2 sysPy)] ∧
    dictGet [(3, SessionTarget.session 3 chromePy), (1, SessionTarget.master 1),
             (2, SessionTarget.system 2 sysPy)] 0 = (none : Option SessionTarget) := by
  exact ⟨by decide, by decide⟩

end WaVeS
